import Mathlib

/-!
Verification development for the pftp FTP-proxy control-channel engine
(`pftp/proxy.go`).  The Go code is shallowly embedded: every definition
below mirrors a function or a code path of `proxy.go`; the environment
(network reads, DNS answers, dial results) is passed in explicitly, and
fallible Go calls are reflected by the `GoResult` type (with a `panic`
constructor for Go runtime panics such as out-of-range indexing).
-/

namespace Pftp

/-! ## Go string helpers

`strings.Trim(s, "\r\n")`, `strings.SplitN(s, " ", 2)[0]`,
`strings.ToUpper` and `strconv.Atoi` as used by `proxy.go`. -/

/-- True for the characters of the cutset `"\r\n"` of `strings.Trim`. -/
def isCRLFChar (c : Char) : Bool := c = '\r' || c = '\n'

/-- Drop leading `'\r'`/`'\n'` characters. -/
def dropCRLF : List Char → List Char
  | [] => []
  | c :: cs => if isCRLFChar c then dropCRLF cs else c :: cs

/-- `strings.Trim(s, "\r\n")`: remove the cutset characters from both ends. -/
def trimCRLF (s : List Char) : List Char :=
  dropCRLF (dropCRLF s.reverse).reverse

/-- `strings.SplitN(s, " ", 2)[0]`: the prefix of `s` up to the first space. -/
def firstToken : List Char → List Char
  | [] => []
  | c :: cs => if c = ' ' then [] else c :: firstToken cs

/-- `strings.ToUpper(strings.SplitN(strings.Trim(line, "\r\n"), " ", 2)[0])`:
the uppercased command token of a raw FTP line (proxy.go:360 and :191). -/
def commandOf (line : String) : String :=
  String.mk ((firstToken (trimCRLF line.data)).map Char.toUpper)

/-- The first whitespace-separated token of a trimmed origin response,
`strings.SplitN(strings.Trim(str, "\r\n"), " ", 2)[0]` (proxy.go:192),
kept as a character list so its head byte can be inspected. -/
def respCode (str : String) : List Char := firstToken (trimCRLF str.data)

/-- Split on a separator character, as `strings.Split(s, sep)` for a
one-character separator: always at least one piece, empty pieces kept. -/
def goSplitAux (sep : Char) : List Char → List Char → List String
  | [], acc => [String.mk acc.reverse]
  | c :: cs, acc =>
    if c = sep then String.mk acc.reverse :: goSplitAux sep cs []
    else goSplitAux sep cs (c :: acc)

/-- `strings.Split(s, ":")` (proxy.go:150-151). -/
def goSplit (s : String) (sep : Char) : List String := goSplitAux sep s.data []

/-- Digit-list accumulator for `strconv.Atoi`. -/
def atoiAux : List Char → Nat → Option Nat
  | [], acc => some acc
  | c :: cs, acc =>
    if '0' ≤ c ∧ c ≤ '9' then atoiAux cs (acc * 10 + (c.toNat - '0'.toNat))
    else none

/-- `strconv.Atoi` with the error discarded (proxy.go:152-153): on a parse
failure Go's `Atoi` yields 0, which the code uses unchecked.  Ports are
non-negative so `Nat` suffices. -/
def atoi (s : String) : Nat :=
  match s.data with
  | [] => 0
  | cs => (atoiAux cs 0).getD 0

/-! ## Outcomes of Go calls -/

/-- Outcome of a Go function: normal value, returned `error`, or runtime
panic (e.g. indexing an empty slice). -/
inductive GoResult (α : Type) where
  | ok (a : α)
  | err (e : String)
  | panic (msg : String)
deriving Repr, DecidableEq

/-! ## Connections and session state -/

/-- The TLS configuration built at proxy.go:197-201. -/
structure TLSConfig where
  insecureSkipVerify : Bool
  minVersion : Nat
  maxVersion : Nat
deriving Repr, DecidableEq

/-- An origin-side TCP connection.  `tlsLayers` records the stack of
`tls.Client` wrappings applied to the raw socket (proxy.go:204), newest
first; a plain socket has `tlsLayers = []`. -/
structure Conn where
  id : Nat
  tlsLayers : List TLSConfig
deriving Repr, DecidableEq

/-- Address family tag of a `net.IP` as returned by `net.LookupIP`. -/
inductive IPAddr where
  | v4 (a b c d : Nat)
  | v6 (repr : String)
deriving Repr, DecidableEq

/-- Whether a resolved address is an IPv4 address. -/
def IPAddr.isV4 : IPAddr → Bool
  | IPAddr.v4 _ _ _ _ => true
  | IPAddr.v6 _ => false

/-- `proxyproto.TCPv4` / `TCPv6` transport tags. -/
inductive Transport where
  | TCP4
  | TCP6
deriving Repr, DecidableEq

/-- The `proxyproto.Header` built at proxy.go:161-169.  The constant
`Command: proxyproto.PROXY` field is omitted; `srcAddr` records the
textual source address handed to `net.ParseIP`; `dstAddr` is the resolved
destination IP.  Ports are truncated to `uint16` as in the Go struct. -/
structure ProxyHeader where
  version : Nat
  transport : Transport
  srcAddr : String
  dstAddr : IPAddr
  srcPort : Nat
  dstPort : Nat
deriving Repr, DecidableEq

/-- The fields of `proxyServer` (proxy.go:22-38) that the verified claims
touch.  Readers and writers are identified with the connection they wrap
(`bufio.NewReader(c)` / `bufio.NewWriter(c)`).  `closed` records the ids
of connections on which `Close()` has been called (possibly repeatedly).
The logger, mutex, client reader and channel values are not part of the
observable state modelled here; the secure-command list is passed to
`commandLog` explicitly. -/
structure ProxyState where
  origin : Conn
  originReader : Conn
  originWriter : Conn
  passThrough : Bool
  sem : Nat
  stop : Bool
  timeout : Nat
  proxyProtocol : Bool
  closed : List Nat
deriving Repr, DecidableEq

/-- `s.origin.Close()`: record the closure of a connection id. -/
def closeConn (s : ProxyState) (cid : Nat) : ProxyState :=
  { s with closed := cid :: s.closed }

/-- Close the currently installed origin connection. -/
def closeOrigin (s : ProxyState) : ProxyState := closeConn s s.origin.id

/-- `semLock` (proxy.go:106-108). -/
def semLock (s : ProxyState) : ProxyState := { s with sem := s.sem + 1 }

/-- `semUnlock` (proxy.go:110-112). -/
def semUnlock (s : ProxyState) : ProxyState := { s with sem := s.sem - 1 }

/-- `semFree` (proxy.go:114-116): `s.sem < 1`. -/
def semFree (s : ProxyState) : Bool := s.sem < 1

/-- `semLocked` (proxy.go:118-120): `s.sem > 0`. -/
def semLocked (s : ProxyState) : Bool := s.sem > 0

/-! ## suspend / unsuspend (proxy.go:122-143)

`suspend` polls `semFree` once per second with a counter `cnt` starting
at 0 and failing as soon as `cnt > timeout`, so the gate is sampled at
seconds 0, 1, ..., timeout.  The gate's state at each poll is supplied
as a schedule `free : Nat → Bool`. -/

/-- The polling loop of `suspend`, with `fuel` the number of remaining
polls (`timeout + 1 - cnt` in the Go loop): returns whether the gate was
observed free before the counter exceeded the timeout. -/
def suspendLoop (free : Nat → Bool) : Nat → Nat → Bool
  | _, 0 => false
  | cnt, fuel + 1 => if free cnt then true else suspendLoop free (cnt + 1) fuel

/-- Whether `suspend` succeeds for a given timeout and gate schedule. -/
def suspendOk (timeout : Nat) (free : Nat → Bool) : Bool :=
  suspendLoop free 0 (timeout + 1)

/-- `suspend` (proxy.go:122-138): on success set `passThrough := false`
and return `true`; on timeout leave the state unchanged and return
`false` (the Go error return). -/
def suspend (s : ProxyState) (free : Nat → Bool) : ProxyState × Bool :=
  if suspendOk s.timeout free then ({ s with passThrough := false }, true)
  else (s, false)

/-- `unsuspend` (proxy.go:140-143). -/
def unsuspend (s : ProxyState) : ProxyState := { s with passThrough := true }

/-! ## commandLog (proxy.go:359-374) -/

/-- `commandLog`: the debug line emitted for an outgoing command.  The
uppercased command token is compared (`strings.Compare ... == 0`)
against each entry of the configured secure-command list; on a match
the parameter is replaced by `********`. -/
def commandLog (secureCommands : List String) (line : String) : String :=
  let command := commandOf line
  if secureCommands.contains command then
    "send to origin: " ++ command ++ " ********"
  else
    "send to origin: " ++ line

/-! ## sendProxyHeader (proxy.go:149-173)

The DNS answer of `net.LookupIP` is an explicit input: `Except.ok ips`
for a successful lookup, `Except.error e` for a failed one (in which Go
returns a nil slice together with the error).  Note the guard at
proxy.go:157 compares the error value with itself (`if err != err`), so
on lookup failure the code falls through and `hostIP[0]` panics. -/

/-- `sendProxyHeader`: build the `proxyproto.Header` for the new origin
leg.  `GoResult.err` arises only from the `if err != err` branch;
`GoResult.panic` models Go's out-of-range indexing on a colon-less
address or an empty lookup result. -/
def sendProxyHeader (dns : Except String (List IPAddr))
    (clientAddr originAddr : String) : GoResult ProxyHeader :=
  match goSplit clientAddr ':', goSplit originAddr ':' with
  | sHost :: sPort :: _, _dHost :: dPort :: _ =>
    let sourcePort := atoi sPort
    let destinationPort := atoi dPort
    let lookupErr : Option String :=
      match dns with
      | Except.error e => some e
      | Except.ok _ => none
    if lookupErr ≠ lookupErr then
      GoResult.err (lookupErr.getD "")
    else
      match dns with
      | Except.error _ => GoResult.panic "index out of range"
      | Except.ok [] => GoResult.panic "index out of range"
      | Except.ok (ip0 :: _) =>
        GoResult.ok
          { version := 1
            transport := Transport.TCP4
            srcAddr := sHost
            dstAddr := ip0
            srcPort := sourcePort % 65536
            dstPort := destinationPort % 65536 }
  | _, _ => GoResult.panic "index out of range"

/-! ## sendTLSCommand (proxy.go:178-215)

Each replayed command consumes one step of the environment: whether the
`newConn.Write` succeeded, and the line returned by
`reader.ReadString('\n')` (`none` for a read error).  The returned trace
lists the commands actually written to the new origin, in order. -/

/-- One step of the replay environment. -/
structure TLSStepEnv where
  writeOk : Bool
  response : Option String
deriving Repr

/-- `tls.Client(newConn, &config)` with the config of proxy.go:197-201:
certificate verification skipped, minimum and maximum version both set
to the recorded protocol version. -/
def tlsWrap (tp : Nat) (conn : Conn) : Conn :=
  { conn with
    tlsLayers :=
      { insecureSkipVerify := true, minVersion := tp, maxVersion := tp }
        :: conn.tlsLayers }

/-- The replay loop of `sendTLSCommand`, indexed by the environment step
`i`.  Returns the final connection (or error/panic) together with the
list of command lines written to the new origin. -/
def sendTLSCommandAux (tp : Nat) (env : Nat → TLSStepEnv) :
    List String → Nat → Conn → GoResult Conn × List String
  | [], _, conn => (GoResult.ok conn, [])
  | cmd :: rest, i, conn =>
    if (env i).writeOk then
      match (env i).response with
      | none => (GoResult.err "failed to make TLS connection", [cmd])
      | some str =>
        if commandOf cmd = "AUTH" then
          match respCode str with
          | [] => (GoResult.panic "index out of range", [cmd])
          | c :: _ =>
            if c = '5' then
              (GoResult.err "origin server has not support TLS connection",
                [cmd])
            else
              let r := sendTLSCommandAux tp env rest (i + 1) (tlsWrap tp conn)
              (r.1, cmd :: r.2)
        else
          let r := sendTLSCommandAux tp env rest (i + 1) conn
          (r.1, cmd :: r.2)
    else
      (GoResult.err "failed to make TLS connection", [])

/-- `sendTLSCommand`: run the replay loop on `newConn` and, on success,
install the resulting connection as the session's origin socket, reader
and writer (proxy.go:210-212).  On error the session state is left
untouched. -/
def sendTLSCommand (s : ProxyState) (tp : Nat) (cmds : List String)
    (env : Nat → TLSStepEnv) (newConn : Conn) :
    ProxyState × GoResult Unit × List String :=
  match sendTLSCommandAux tp env cmds 0 newConn with
  | (GoResult.ok conn', tr) =>
    ({ s with origin := conn', originReader := conn', originWriter := conn' },
      GoResult.ok (), tr)
  | (GoResult.err e, tr) => (s, GoResult.err e, tr)
  | (GoResult.panic m, tr) => (s, GoResult.panic m, tr)

/-! ## switchOrigin (proxy.go:217-265)

The whole environment of one switch attempt. `gateFree` is the suspend
gate's schedule, `dialResult` the outcome of `net.Dial` (the id of the
fresh connection on success), `greeting` the welcome line read from the
new origin (`none` for a read error), and `tlsSteps` the replay
environment.  The write trace on the new origin records the PROXY
header and every replayed FTP line, in the order they were written. -/

/-- A write observed on the new origin connection. -/
inductive WEvent where
  | header (connId : Nat) (h : ProxyHeader)
  | ftpWrite (connId : Nat) (line : String)
deriving Repr, DecidableEq

/-- The FTP lines of a write trace, in order. -/
def writtenLines (tr : List WEvent) : List String :=
  tr.filterMap fun e =>
    match e with
    | WEvent.ftpWrite _ line => some line
    | WEvent.header _ _ => none

/-- Environment of one `switchOrigin` call. -/
structure SwitchEnv where
  gateFree : Nat → Bool
  dialResult : Option Nat
  dns : Except String (List IPAddr)
  headerWriteOk : Bool
  greeting : Option String
  tlsSteps : Nat → TLSStepEnv

/-- The proxy-protocol phase of `switchOrigin` (proxy.go:240-245): when
enabled, build the header via `sendProxyHeader` and write it to the new
connection (`headerWriteOk` is the outcome of `header.WriteTo`). -/
def headerPhase (proxyProtocol : Bool) (env : SwitchEnv)
    (clientAddr originAddr : String) (nid : Nat) : GoResult (List WEvent) :=
  if proxyProtocol then
    match sendProxyHeader env.dns clientAddr originAddr with
    | GoResult.ok h =>
      if env.headerWriteOk then GoResult.ok [WEvent.header nid h]
      else GoResult.err "proxy header write failed"
    | GoResult.err e => GoResult.err e
    | GoResult.panic m => GoResult.panic m
  else GoResult.ok []

/-- The body of `switchOrigin` after the suspend phase (proxy.go:228-264).
The send on `s.stopChan` (line 228) is handled by the running pump's
`<-s.stopChan` case (proxy.go:344-349), which closes the current origin
socket and sets the stop flag; that effect is applied first.  Then the
dial, the proxy header, the greeting read and the TLS replay follow in
source order, with the error handling of each path reproduced exactly
(note that the header and greeting failure paths return without
resetting `s.stop`). -/
def switchOriginCore (s : ProxyState) (clientAddr originAddr : String)
    (tp : Nat) (previousTLSCommands : List String) (env : SwitchEnv) :
    ProxyState × GoResult Unit × List WEvent :=
  let s1 : ProxyState := { closeOrigin s with stop := true }
  match env.dialResult with
  | none => ({ s1 with stop := false }, GoResult.err "dial failed", [])
  | some nid =>
    let c : Conn := ⟨nid, []⟩
    let old := s1.origin
    match headerPhase s1.proxyProtocol env clientAddr originAddr nid with
    | GoResult.err e => (s1, GoResult.err e, [])
    | GoResult.panic m => (s1, GoResult.panic m, [])
    | GoResult.ok tr0 =>
      match env.greeting with
      | none => (s1, GoResult.err "greeting read failed", tr0)
      | some _ =>
        let r := sendTLSCommand s1 tp previousTLSCommands env.tlsSteps c
        let tr := tr0 ++ r.2.2.map (WEvent.ftpWrite nid)
        match r.2.1 with
        | GoResult.ok _ =>
          ({ closeConn r.1 old.id with stop := false }, GoResult.ok (), tr)
        | GoResult.err e =>
          ({ closeConn r.1 nid with stop := false }, GoResult.err e, tr)
        | GoResult.panic m => (r.1, GoResult.panic m, tr)

/-- `switchOrigin` (proxy.go:217-265): if the pump is in pass-through,
first acquire the suspend gate (returning its timeout error on failure)
and register the deferred `unsuspend`, which runs on every return of the
core body. -/
def switchOrigin (s : ProxyState) (clientAddr originAddr : String)
    (tp : Nat) (previousTLSCommands : List String) (env : SwitchEnv) :
    ProxyState × GoResult Unit × List WEvent :=
  if s.passThrough then
    if suspendOk s.timeout env.gateFree then
      let r := switchOriginCore { s with passThrough := false }
        clientAddr originAddr tp previousTLSCommands env
      ({ r.1 with passThrough := true }, r.2.1, r.2.2)
    else
      (s, GoResult.err "Could not get semaphore to send to client", [])
  else
    switchOriginCore s clientAddr originAddr tp previousTLSCommands env

/-! ## The pump: start (proxy.go:267-356)

The reader goroutine and the writer loop are joined by the one-slot
`read`/`send` handshake: the reader does not issue the next `Read` until
the writer has written and flushed the previous slice and acknowledged
it on `send`.  The pump is therefore modelled as a sequential fold over
the sequence of reader-side events; client-side `Write`/`Flush` are
assumed to succeed (a client-write failure exits the loop and is the
subject of no claim).  In the branch where the slice is dropped
(pass-through off and gate free) the reader blocks on `<-send` with the
writer never acknowledging; the fold marks this `blockedOnSend` and
processes no further events. -/

/-- One event observed by the pump: a successful origin read, an EOF
(carrying the final, possibly empty, slice `buff[:n]`), a non-EOF read
error, or an external signal on the stop channel. -/
inductive ReadEvent where
  | chunk (data : String)
  | eofData (data : String)
  | fail (e : String)
  | stopSignal
deriving Repr, DecidableEq

/-- Observable outcome of a pump run: final session state, the slices
written and flushed to the client in order, the messages the reader
sent on the dedicated error channel, the value `start` returns
(`none` for `nil`), and whether the reader ended up blocked on the
send-acknowledgement channel. -/
structure PumpOut where
  state : ProxyState
  written : List String
  errchanMsgs : List String
  ret : Option String
  blockedOnSend : Bool
deriving Repr, DecidableEq

/-- The pump loop (proxy.go:279-351).  Per event:
* `chunk d` (successful read): if `passThrough || semLocked` the slice
  goes over `read`, the writer writes and flushes it, and the gate is
  released if it was held; otherwise the slice is dropped and the
  reader blocks on `<-send`.
* `eofData d` (proxy.go:283-298): same forwarding condition for the
  final slice; then `lastError = io.EOF` and the reader signals
  `s.stopChan`, whose handler closes the origin and sets the stop flag,
  so `start` returns `io.EOF` — which was never sent on `errchan`.
* `fail e`: the reader sends `e` on `errchan`; the writer loop records
  it and exits without touching the origin or the stop flag.
* `stopSignal` (external, proxy.go:344-349): close `errchan`, close the
  origin socket, set the stop flag, exit with `lastError` untouched. -/
def pumpRun (s : ProxyState) : List ReadEvent → PumpOut
  | [] => ⟨s, [], [], none, false⟩
  | ReadEvent.chunk d :: rest =>
    if s.passThrough || semLocked s then
      let s' := if semLocked s then semUnlock s else s
      let out := pumpRun s' rest
      ⟨out.state, d :: out.written, out.errchanMsgs, out.ret, out.blockedOnSend⟩
    else
      ⟨s, [], [], none, true⟩
  | ReadEvent.eofData d :: _ =>
    if s.passThrough || semLocked s then
      let s' := if semLocked s then semUnlock s else s
      ⟨{ closeOrigin s' with stop := true }, [d], [], some "EOF", false⟩
    else
      ⟨s, [], [], none, true⟩
  | ReadEvent.fail e :: _ => ⟨s, [], [e], some e, false⟩
  | ReadEvent.stopSignal :: _ =>
    ⟨{ closeOrigin s with stop := true }, [], [], none, false⟩

/-- `start` (proxy.go:267-270): when the session's stop flag is already
set, return `nil` immediately, reading and writing nothing. -/
def start (s : ProxyState) (evs : List ReadEvent) : PumpOut :=
  if s.stop then ⟨s, [], [], none, false⟩ else pumpRun s evs

/-! ## Concrete sample data used by witnesses and counterexamples -/

/-- A plain origin connection. -/
def connA : Conn := ⟨1, []⟩

/-- A session in normal pass-through operation. -/
def stateA : ProxyState :=
  { origin := connA
    originReader := connA
    originWriter := connA
    passThrough := true
    sem := 0
    stop := false
    timeout := 3
    proxyProtocol := false
    closed := [] }

/-- A session whose suspend gate is held by an injector. -/
def stateGateHeld : ProxyState := { stateA with passThrough := false, sem := 1 }

/-- A session with the proxy-protocol flag enabled. -/
def statePP : ProxyState := { stateA with proxyProtocol := true, passThrough := false }

/-- A switch environment whose PROXY-header write fails after a
successful dial. -/
def envHeaderFail : SwitchEnv :=
  { gateFree := fun _ => true
    dialResult := some 7
    dns := Except.ok [IPAddr.v4 10 0 0 2]
    headerWriteOk := false
    greeting := some "220 server ready\r\n"
    tlsSteps := fun _ => ⟨true, some "234 proceed\r\n"⟩ }

/-- A switch environment whose DNS lookup answers an IPv6 address
first; everything else succeeds. -/
def envV6 : SwitchEnv :=
  { gateFree := fun _ => true
    dialResult := some 7
    dns := Except.ok [IPAddr.v6 "2001:db8::1"]
    headerWriteOk := true
    greeting := some "220 server ready\r\n"
    tlsSteps := fun _ => ⟨true, some "234 proceed\r\n"⟩ }

/-- The session state left behind by a switch attempt on `statePP` that
failed at the PROXY-header write. -/
def stateAfterFailedSwitch : ProxyState :=
  (switchOrigin statePP "1.2.3.4:5000" "origin.example:21" 771 [] envHeaderFail).1

/-! ## Helper lemmas -/

/-- Membership characterization of the suspend polling loop. -/
theorem suspendLoop_eq_true (free : Nat → Bool) :
    ∀ (fuel cnt : Nat),
      suspendLoop free cnt fuel = true ↔ ∃ i, i < fuel ∧ free (cnt + i) = true := by
  intro fuel
  induction fuel with
  | zero => intro cnt; simp [suspendLoop]
  | succ n ih =>
    intro cnt
    simp only [suspendLoop]
    by_cases h : free cnt = true
    · simp only [h, if_true, true_iff]
      exact ⟨0, Nat.succ_pos n, by simpa using h⟩
    · have h' : free cnt = false := by simpa using h
      rw [if_neg (by simp [h']), ih (cnt + 1)]
      constructor
      · rintro ⟨i, hi, hf⟩
        refine ⟨i + 1, Nat.succ_lt_succ hi, ?_⟩
        rw [show cnt + (i + 1) = cnt + 1 + i by omega]
        exact hf
      · rintro ⟨i, hi, hf⟩
        cases i with
        | zero =>
          rw [Nat.add_zero] at hf
          exact absurd hf h
        | succ j =>
          refine ⟨j, Nat.lt_of_succ_lt_succ hi, ?_⟩
          rw [show cnt + 1 + j = cnt + (j + 1) by omega]
          exact hf

/-- `suspend` succeeds exactly when the gate is free at one of the polls
0, 1, ..., timeout. -/
theorem suspendOk_iff (timeout : Nat) (free : Nat → Bool) :
    suspendOk timeout free = true ↔ ∃ i, i ≤ timeout ∧ free i = true := by
  unfold suspendOk
  rw [suspendLoop_eq_true]
  constructor
  · rintro ⟨i, hi, hf⟩
    exact ⟨i, Nat.lt_succ_iff.mp hi, by simpa using hf⟩
  · rintro ⟨i, hi, hf⟩
    exact ⟨i, Nat.lt_succ_iff.mpr hi, by simpa using hf⟩

/-! ## Claim theorems -/

/-- Claim C9: a line whose uppercased first token equals an entry of the
secure-command list is logged as the command name followed by
`********`, independently of its parameter (two lines with the same
secure command log identically); every other line is logged in full. -/
theorem commandLog_spec (secure : List String) (l1 l2 : String)
    (hsec : secure.contains (commandOf l1) = true)
    (hsame : commandOf l1 = commandOf l2) :
    commandLog secure l1 = "send to origin: " ++ commandOf l1 ++ " ********"
    ∧ commandLog secure l1 = commandLog secure l2
    ∧ ∀ l, secure.contains (commandOf l) = false →
        commandLog secure l = "send to origin: " ++ l := by
  have hmem : commandOf l1 ∈ secure := by simpa using hsec
  refine ⟨?_, ?_, ?_⟩
  · simp [commandLog, hmem]
  · simp [commandLog, hmem, ← hsame]
  · intro l hl
    have hnmem : commandOf l ∉ secure := by simpa using hl
    simp [commandLog, hnmem]

/-- Witness for C9: with the default secure set, `PASS hunter2` is
redacted and logs identically to `PASS hunter3`. -/
theorem commandLog_spec_witness :
    commandLog ["PASS", "ACCT"] "PASS hunter2\r\n"
      = "send to origin: PASS ********"
    ∧ commandLog ["PASS", "ACCT"] "PASS hunter2\r\n"
      = commandLog ["PASS", "ACCT"] "PASS hunter3\r\n" := by
  have h := commandLog_spec ["PASS", "ACCT"] "PASS hunter2\r\n" "PASS hunter3\r\n"
    (by decide) (by decide)
  exact ⟨h.1.trans (by decide), h.2.1⟩

/-- Whether a `sendProxyHeader` outcome is a returned Go `error` (as
opposed to a built header or a runtime panic).  The only `error` return
in the source is the `if err != err` branch. -/
def isErrResult : GoResult ProxyHeader → Bool
  | GoResult.err _ => true
  | _ => false

/-- Claim C6: the guard `if err != err` around the DNS lookup in
`sendProxyHeader` is always false, so the error-return branch is
unreachable for every input — a failed lookup is never returned to the
caller (it instead falls through to the `hostIP[0]` indexing). -/
theorem sendProxyHeader_no_lookup_error (dns : Except String (List IPAddr))
    (clientAddr originAddr : String) :
    isErrResult (sendProxyHeader dns clientAddr originAddr) = false := by
  unfold sendProxyHeader
  split
  · cases dns with
    | error e => simp [isErrResult]
    | ok ips => cases ips <;> simp [isErrResult]
  · simp [isErrResult]

/-- Claim C8: `suspend` polls the gate at seconds 0, 1, ..., timeout; if
the gate is free at one of those polls it sets pass-through to false
and returns success, otherwise it returns an error leaving the state
unchanged; `unsuspend` always sets pass-through back to true. -/
theorem suspend_spec (s : ProxyState) (free : Nat → Bool) :
    ((∃ i, i ≤ s.timeout ∧ free i = true) →
        suspend s free = ({ s with passThrough := false }, true))
    ∧ ((∀ i, i ≤ s.timeout → free i = false) →
        suspend s free = (s, false))
    ∧ unsuspend s = { s with passThrough := true } := by
  refine ⟨?_, ?_, rfl⟩
  · intro h
    have hok : suspendOk s.timeout free = true := (suspendOk_iff _ _).mpr h
    simp [suspend, hok]
  · intro h
    have hok : suspendOk s.timeout free = false := by
      by_contra hc
      have := (suspendOk_iff s.timeout free).mp (by simpa using hc)
      obtain ⟨i, hi, hf⟩ := this
      rw [h i hi] at hf
      exact Bool.false_ne_true hf
    simp [suspend, hok]

/-- Witness for C8: a free gate lets `suspend` flip pass-through off,
and `unsuspend` flips it back on. -/
theorem suspend_spec_witness :
    suspend stateA (fun _ => true) = ({ stateA with passThrough := false }, true)
    ∧ unsuspend stateA = { stateA with passThrough := true } :=
  ⟨(suspend_spec stateA (fun _ => true)).1 ⟨0, Nat.zero_le _, rfl⟩,
    (suspend_spec stateA (fun _ => true)).2.2⟩

/-- Claim C3: while pass-through is true and the gate is free, every
slice read from the origin is written to the client exactly once and in
the order read — the run over any sequence of successful reads outputs
exactly that sequence, leaves the state unchanged, sends nothing on the
error channel and never blocks.  (The ordering rests on the one-slot
`read`/`send` handshake of proxy.go:306-312/340, under which the pump
is this sequential fold.) -/
theorem pump_passThrough_order (s : ProxyState) (chunks : List String)
    (hpt : s.passThrough = true) (hsem : s.sem = 0) :
    pumpRun s (chunks.map ReadEvent.chunk) = ⟨s, chunks, [], none, false⟩ := by
  induction chunks with
  | nil => simp [pumpRun]
  | cons d rest ih =>
    have hlock : semLocked s = false := by simp [semLocked, hsem]
    simp [pumpRun, hpt, hlock, ih]

/-- Witness for C3: two response lines pass through unchanged and in
order. -/
theorem pump_passThrough_order_witness :
    pumpRun stateA [ReadEvent.chunk "220 hi\r\n", ReadEvent.chunk "331 ok\r\n"]
      = ⟨stateA, ["220 hi\r\n", "331 ok\r\n"], [], none, false⟩ :=
  pump_passThrough_order stateA ["220 hi\r\n", "331 ok\r\n"] rfl rfl

/-- Claim C2 as stated — "while the suspend gate is held, no byte read
from the origin is written to the client" — is false: the counterexample
is a session with the gate held (`sem = 1`), where the pump forwards the
slice it read to the client writer (proxy.go:305-309 forwards whenever
`passThrough || semLocked`). -/
theorem pump_gate_held_counterexample :
    ¬ (∀ (s : ProxyState) (d : String), 1 ≤ s.sem →
        (pumpRun s [ReadEvent.chunk d]).written = []) := by
  intro h
  have := h stateGateHeld "200 response\r\n" (by decide)
  exact absurd this (by decide)

/-- Claim C2 amended: while the suspend gate is held, a slice read from
the origin is still written to the client — the pump forwards it and
releases the gate (decrements the semaphore); origin bytes are withheld
from the client only when pass-through is false and the gate is free,
in which case nothing is forwarded and the reader blocks on the
send-acknowledgement channel. -/
theorem pump_gate_held_amended (s : ProxyState) (d : String) :
    (1 ≤ s.sem →
        pumpRun s [ReadEvent.chunk d] = ⟨semUnlock s, [d], [], none, false⟩)
    ∧ (s.passThrough = false → s.sem = 0 →
        pumpRun s [ReadEvent.chunk d] = ⟨s, [], [], none, true⟩) := by
  constructor
  · intro h
    have hlock : semLocked s = true := by simp [semLocked]; omega
    simp [pumpRun, hlock]
  · intro hpt hsem
    have hlock : semLocked s = false := by simp [semLocked, hsem]
    simp [pumpRun, hpt, hlock]

/-- Witness for the amended C2: with the gate held, the response line is
forwarded to the client and the semaphore drops to 0. -/
theorem pump_gate_held_amended_witness :
    pumpRun stateGateHeld [ReadEvent.chunk "226 done\r\n"]
      = ⟨semUnlock stateGateHeld, ["226 done\r\n"], [], none, false⟩ :=
  (pump_gate_held_amended stateGateHeld "226 done\r\n").1 (by decide)

/-- Claim C5: on EOF from the origin while pass-through is true or the
gate is held, the reader emits the final (possibly zero-length) slice,
waits for its send acknowledgement, and signals the stop channel, whose
handler closes the origin and sets the stop flag so the pump
terminates; the EOF is never sent on the pump's error channel
(`errchanMsgs = []`), `start` returning the EOF value directly. -/
theorem pump_eof_spec (s : ProxyState) (d : String)
    (h : s.passThrough = true ∨ 1 ≤ s.sem) :
    pumpRun s [ReadEvent.eofData d]
      = ⟨{ closeOrigin (if semLocked s then semUnlock s else s) with stop := true },
          [d], [], some "EOF", false⟩ := by
  have hcond : (s.passThrough || semLocked s) = true := by
    rcases h with h | h
    · simp [h]
    · simp [semLocked]; omega
  simp only [pumpRun, hcond, if_true]

/-- Witness for C5: EOF after a final `221 Goodbye` line emits the line,
signals stop, and puts nothing on the error channel. -/
theorem pump_eof_spec_witness :
    pumpRun stateA [ReadEvent.eofData "221 Goodbye\r\n"]
      = ⟨{ closeOrigin stateA with stop := true },
          ["221 Goodbye\r\n"], [], some "EOF", false⟩ := by
  rw [pump_eof_spec stateA "221 Goodbye\r\n" (Or.inl rfl)]
  decide

/-- Claim C10: when the session's stop flag is set, `start` returns
`nil` immediately — no slice is read or written, nothing is sent on the
error channel, and the state is unmodified. -/
theorem start_stop_noop (s : ProxyState) (evs : List ReadEvent)
    (h : s.stop = true) :
    start s evs = ⟨s, [], [], none, false⟩ := by
  simp [start, h]

/-- Witness for C10: after a switch attempt that failed at the
PROXY-header write (leaving the stop flag set), restarting the pump is
a silent no-op. -/
theorem start_stop_noop_witness :
    start stateAfterFailedSwitch [ReadEvent.chunk "150 data\r\n"]
      = ⟨stateAfterFailedSwitch, [], [], none, false⟩ :=
  start_stop_noop stateAfterFailedSwitch [ReadEvent.chunk "150 data\r\n"] (by decide)

/-- A successful replay writes exactly the command list, in order. -/
theorem sendTLSCommandAux_ok_trace (tp : Nat) (env : Nat → TLSStepEnv) :
    ∀ (cmds : List String) (i : Nat) (conn conn' : Conn),
      (sendTLSCommandAux tp env cmds i conn).1 = GoResult.ok conn' →
      (sendTLSCommandAux tp env cmds i conn).2 = cmds := by
  intro cmds
  induction cmds with
  | nil => intro i conn conn' _; rfl
  | cons cmd rest ih =>
    intro i conn conn' h
    by_cases hw : (env i).writeOk = true
    · cases hresp : (env i).response with
      | none => simp [sendTLSCommandAux, hw, hresp] at h
      | some str =>
        by_cases hauth : commandOf cmd = "AUTH"
        · cases hcode : respCode str with
          | nil => simp [sendTLSCommandAux, hw, hresp, hauth, hcode] at h
          | cons c cs =>
            by_cases h5 : c = '5'
            · simp [sendTLSCommandAux, hw, hresp, hauth, hcode, h5] at h
            · simp only [sendTLSCommandAux, hw, hresp, hauth, hcode, h5] at h ⊢
              simp only [if_true, if_pos, List.cons.injEq, true_and] at h ⊢
              simp [h5] at h ⊢
              exact ih (i + 1) (tlsWrap tp conn) conn' h
        · simp [sendTLSCommandAux, hw, hresp, hauth] at h ⊢
          exact ih (i + 1) conn conn' h
    · have hw' : (env i).writeOk = false := eq_false_of_ne_true hw
      simp [sendTLSCommandAux, hw'] at h

/-- A successful replay preserves the connection id: only TLS layers are
added, the underlying socket is the dialed one. -/
theorem sendTLSCommandAux_ok_id (tp : Nat) (env : Nat → TLSStepEnv) :
    ∀ (cmds : List String) (i : Nat) (conn conn' : Conn),
      (sendTLSCommandAux tp env cmds i conn).1 = GoResult.ok conn' →
      conn'.id = conn.id := by
  intro cmds
  induction cmds with
  | nil =>
    intro i conn conn' h
    simp only [sendTLSCommandAux] at h
    cases h
    rfl
  | cons cmd rest ih =>
    intro i conn conn' h
    by_cases hw : (env i).writeOk = true
    · cases hresp : (env i).response with
      | none => simp [sendTLSCommandAux, hw, hresp] at h
      | some str =>
        by_cases hauth : commandOf cmd = "AUTH"
        · cases hcode : respCode str with
          | nil => simp [sendTLSCommandAux, hw, hresp, hauth, hcode] at h
          | cons c cs =>
            by_cases h5 : c = '5'
            · simp [sendTLSCommandAux, hw, hresp, hauth, hcode, h5] at h
            · simp [sendTLSCommandAux, hw, hresp, hauth, hcode, h5] at h
              have := ih (i + 1) (tlsWrap tp conn) conn' h
              simpa [tlsWrap] using this
        · simp [sendTLSCommandAux, hw, hresp, hauth] at h
          exact ih (i + 1) conn conn' h
    · have hw' : (env i).writeOk = false := eq_false_of_ne_true hw
      simp [sendTLSCommandAux, hw'] at h

/-- On a replay error `sendTLSCommand` leaves all session fields
untouched (the origin fields are installed only on success,
proxy.go:210-212). -/
theorem sendTLSCommand_err_state (s : ProxyState) (tp : Nat)
    (cmds : List String) (env : Nat → TLSStepEnv) (conn : Conn) (e : String)
    (h : (sendTLSCommand s tp cmds env conn).2.1 = GoResult.err e) :
    (sendTLSCommand s tp cmds env conn).1 = s := by
  unfold sendTLSCommand at h ⊢
  rcases hr : sendTLSCommandAux tp env cmds 0 conn with ⟨r, tr⟩
  cases r <;> simp [hr] at h ⊢

/-- Claim C4: during an origin switch the Previous TLS Commands are
replayed in order; for a replayed line whose command token is `AUTH`
the response is read and inspected: a first digit `'5'` aborts the
switch with an error (and `sendTLSCommand` leaves the old origin
installed), while any other first digit wraps the new socket in TLS —
minimum and maximum version both the recorded protocol version,
certificate verification skipped — before the next line is replayed. -/
theorem sendTLSCommand_spec (s : ProxyState) (tp i : Nat)
    (env : Nat → TLSStepEnv) (cmd : String) (rest : List String)
    (conn : Conn) (str : String) (c0 : Char) (cs : List Char)
    (hw : (env i).writeOk = true)
    (hresp : (env i).response = some str)
    (hauth : commandOf cmd = "AUTH")
    (hcode : respCode str = c0 :: cs) :
    (c0 = '5' →
        sendTLSCommandAux tp env (cmd :: rest) i conn
          = (GoResult.err "origin server has not support TLS connection",
              [cmd]))
    ∧ (c0 ≠ '5' →
        sendTLSCommandAux tp env (cmd :: rest) i conn
          = ((sendTLSCommandAux tp env rest (i + 1) (tlsWrap tp conn)).1,
              cmd :: (sendTLSCommandAux tp env rest (i + 1) (tlsWrap tp conn)).2)
          ∧ tlsWrap tp conn
            = { conn with
                tlsLayers :=
                  { insecureSkipVerify := true, minVersion := tp,
                    maxVersion := tp } :: conn.tlsLayers })
    ∧ (∀ (cmds2 : List String) (e : String),
        (sendTLSCommand s tp cmds2 env conn).2.1 = GoResult.err e →
        (sendTLSCommand s tp cmds2 env conn).1 = s) := by
  refine ⟨?_, ?_, ?_⟩
  · intro h5
    simp [sendTLSCommandAux, hw, hresp, hauth, hcode, h5]
  · intro h5
    refine ⟨?_, rfl⟩
    simp [sendTLSCommandAux, hw, hresp, hauth, hcode, h5]
  · intro cmds2 e h
    exact sendTLSCommand_err_state s tp cmds2 env conn e h

/-- Witness for C4: replaying `AUTH TLS` against an origin answering
`534` aborts with the TLS-unsupported error after writing only that
line. -/
theorem sendTLSCommand_spec_witness :
    sendTLSCommandAux 771 (fun _ => ⟨true, some "534 refused\r\n"⟩)
        ["AUTH TLS\r\n"] 0 ⟨5, []⟩
      = (GoResult.err "origin server has not support TLS connection",
          ["AUTH TLS\r\n"]) :=
  (sendTLSCommand_spec stateA 771 0 (fun _ => ⟨true, some "534 refused\r\n"⟩)
      "AUTH TLS\r\n" [] ⟨5, []⟩ "534 refused\r\n" '5' ['3', '4']
      rfl rfl (by decide) (by decide)).1 rfl

/-- FTP lines of a pure replay trace. -/
theorem writtenLines_map_ftp (nid : Nat) (l : List String) :
    writtenLines (l.map (WEvent.ftpWrite nid)) = l := by
  induction l with
  | nil => rfl
  | cons a t ih => simpa [writtenLines] using ih

/-- The FTP lines of a concatenated trace. -/
theorem writtenLines_append (a b : List WEvent) :
    writtenLines (a ++ b) = writtenLines a ++ writtenLines b := by
  simp [writtenLines]

/-- A successful header phase writes no FTP line. -/
theorem headerPhase_ok_lines (pp : Bool) (env : SwitchEnv) (cA oA : String)
    (nid : Nat) (tr0 : List WEvent)
    (h : headerPhase pp env cA oA nid = GoResult.ok tr0) :
    writtenLines tr0 = [] := by
  by_cases hpp : pp = true
  · rcases hsp : sendProxyHeader env.dns cA oA with hd | e | m
    · by_cases hw : env.headerWriteOk = true
      · simp [headerPhase, hpp, hsp, hw] at h
        simp [← h, writtenLines]
      · simp [headerPhase, hpp, hsp, eq_false_of_ne_true hw] at h
    · simp [headerPhase, hpp, hsp] at h
    · simp [headerPhase, hpp, hsp] at h
  · simp [headerPhase, eq_false_of_ne_true hpp] at h
    simp [h, writtenLines]

/-- Outcome characterization of the switch body (after the suspend
phase): on success the replay trace is exactly the command list, the
stop flag ends cleared, the old socket has been closed, and the final
TLS connection over the dialed socket is installed as origin, reader
and writer; on error the origin fields are untouched. -/
theorem switchOriginCore_spec (s : ProxyState) (cA oA : String) (tp : Nat)
    (cmds : List String) (env : SwitchEnv) :
    ((switchOriginCore s cA oA tp cmds env).2.1 = GoResult.ok () →
        writtenLines (switchOriginCore s cA oA tp cmds env).2.2 = cmds
        ∧ (switchOriginCore s cA oA tp cmds env).1.stop = false
        ∧ s.origin.id ∈ (switchOriginCore s cA oA tp cmds env).1.closed
        ∧ (switchOriginCore s cA oA tp cmds env).1.originReader
            = (switchOriginCore s cA oA tp cmds env).1.origin
        ∧ (switchOriginCore s cA oA tp cmds env).1.originWriter
            = (switchOriginCore s cA oA tp cmds env).1.origin
        ∧ (∃ nid, env.dialResult = some nid
            ∧ (switchOriginCore s cA oA tp cmds env).1.origin.id = nid))
    ∧ ((switchOriginCore s cA oA tp cmds env).2.1 ≠ GoResult.ok () →
        (switchOriginCore s cA oA tp cmds env).1.origin = s.origin
        ∧ (switchOriginCore s cA oA tp cmds env).1.originReader = s.originReader
        ∧ (switchOriginCore s cA oA tp cmds env).1.originWriter
            = s.originWriter) := by
  rcases hdial : env.dialResult with _ | nid
  · constructor
    · intro h
      simp [switchOriginCore, hdial] at h
    · intro _
      simp [switchOriginCore, hdial, closeOrigin, closeConn]
  · rcases hph : headerPhase s.proxyProtocol env cA oA nid with tr0 | e | m
    · rcases hgreet : env.greeting with _ | g
      · constructor
        · intro h
          simp [switchOriginCore, hdial, closeOrigin, closeConn, hph, hgreet] at h
        · intro _
          simp [switchOriginCore, hdial, closeOrigin, closeConn, hph, hgreet]
      · rcases haux : sendTLSCommandAux tp env.tlsSteps cmds 0 ⟨nid, []⟩
          with ⟨res, tr⟩
        cases res with
        | ok conn' =>
          constructor
          · intro _
            have htr : tr = cmds := by
              have h1 := sendTLSCommandAux_ok_trace tp env.tlsSteps cmds 0
                ⟨nid, []⟩ conn' (by rw [haux])
              rw [haux] at h1
              exact h1
            have hid : conn'.id = nid := by
              have h2 := sendTLSCommandAux_ok_id tp env.tlsSteps cmds 0
                ⟨nid, []⟩ conn' (by rw [haux])
              exact h2
            have hlines := headerPhase_ok_lines s.proxyProtocol env cA oA nid tr0 hph
            refine ⟨?_, ?_, ?_, ?_, ?_, nid, rfl, ?_⟩
            · have hfin : writtenLines (tr0 ++ tr.map (WEvent.ftpWrite nid))
                  = cmds := by
                rw [writtenLines_append, hlines, writtenLines_map_ftp, htr,
                  List.nil_append]
              simpa [switchOriginCore, hdial, closeOrigin, closeConn, hph,
                hgreet, sendTLSCommand, haux] using hfin
            · simp [switchOriginCore, hdial, closeOrigin, closeConn, hph, hgreet,
                sendTLSCommand, haux]
            · simp [switchOriginCore, hdial, closeOrigin, closeConn, hph, hgreet,
                sendTLSCommand, haux]
            · simp [switchOriginCore, hdial, closeOrigin, closeConn, hph, hgreet,
                sendTLSCommand, haux]
            · simp [switchOriginCore, hdial, closeOrigin, closeConn, hph, hgreet,
                sendTLSCommand, haux]
            · simp [switchOriginCore, hdial, closeOrigin, closeConn, hph, hgreet,
                sendTLSCommand, haux, hid]
          · intro h
            simp [switchOriginCore, hdial, closeOrigin, closeConn, hph, hgreet,
              sendTLSCommand, haux] at h
        | err e2 =>
          constructor
          · intro h
            simp [switchOriginCore, hdial, closeOrigin, closeConn, hph, hgreet,
              sendTLSCommand, haux] at h
          · intro _
            simp [switchOriginCore, hdial, closeOrigin, closeConn, hph, hgreet,
              sendTLSCommand, haux]
        | panic m2 =>
          constructor
          · intro h
            simp [switchOriginCore, hdial, closeOrigin, closeConn, hph, hgreet,
              sendTLSCommand, haux] at h
          · intro _
            simp [switchOriginCore, hdial, closeOrigin, closeConn, hph, hgreet,
              sendTLSCommand, haux]
    · constructor
      · intro h
        simp [switchOriginCore, hdial, closeOrigin, closeConn, hph] at h
      · intro _
        simp [switchOriginCore, hdial, closeOrigin, closeConn, hph]
    · constructor
      · intro h
        simp [switchOriginCore, hdial, closeOrigin, closeConn, hph] at h
      · intro _
        simp [switchOriginCore, hdial, closeOrigin, closeConn, hph]

/-- Claim C1 as stated — every `switchOrigin` call either fully
succeeds (replaying each Previous TLS Command exactly once, in order)
or returns an error with the session unaffected, the stop flag cleared
and the old socket not closed — is false.  Counterexample: with the
proxy-protocol flag on and a PROXY-header write failure after a
successful dial, the call returns an error, yet the stop flag is left
set (the header-failure return at proxy.go:242-244 never resets
`s.stop`) and the old socket has already been closed by the pump's
stop-channel handler (proxy.go:347). -/
theorem switchOrigin_atomicity_counterexample :
    ¬ (∀ (s : ProxyState) (cA oA : String) (tp : Nat) (cmds : List String)
          (env : SwitchEnv),
        ((switchOrigin s cA oA tp cmds env).2.1 = GoResult.ok ()
            ∧ writtenLines (switchOrigin s cA oA tp cmds env).2.2 = cmds)
        ∨ ((switchOrigin s cA oA tp cmds env).2.1 ≠ GoResult.ok ()
            ∧ (switchOrigin s cA oA tp cmds env).1.origin = s.origin
            ∧ (switchOrigin s cA oA tp cmds env).1.stop = false
            ∧ s.origin.id ∉ (switchOrigin s cA oA tp cmds env).1.closed)) := by
  intro h
  exact absurd
    (h statePP "1.2.3.4:5000" "origin.example:21" 771 [] envHeaderFail)
    (by decide)

/-- Claim C1 amended: if `switchOrigin` succeeds, the dialed connection
(TLS-wrapped as dictated by the replay) is installed as origin socket,
reader and writer, every element of the Previous TLS Commands list was
written to the new origin exactly once and in order, the stop flag ends
cleared and the old socket closed; if it returns an error (or panics),
the origin socket/reader/writer fields are unchanged — but, contrary to
the original claim, on error the stop flag is not always cleared (it
stays set when the PROXY-header write or the greeting read fails) and
the old socket is not left open: the pump's stop handling has already
closed it on every path that sent the stop signal. -/
theorem switchOrigin_amended (s : ProxyState) (cA oA : String) (tp : Nat)
    (cmds : List String) (env : SwitchEnv) :
    ((switchOrigin s cA oA tp cmds env).2.1 = GoResult.ok () →
        writtenLines (switchOrigin s cA oA tp cmds env).2.2 = cmds
        ∧ (switchOrigin s cA oA tp cmds env).1.stop = false
        ∧ s.origin.id ∈ (switchOrigin s cA oA tp cmds env).1.closed
        ∧ (switchOrigin s cA oA tp cmds env).1.originReader
            = (switchOrigin s cA oA tp cmds env).1.origin
        ∧ (switchOrigin s cA oA tp cmds env).1.originWriter
            = (switchOrigin s cA oA tp cmds env).1.origin
        ∧ (∃ nid, env.dialResult = some nid
            ∧ (switchOrigin s cA oA tp cmds env).1.origin.id = nid))
    ∧ ((switchOrigin s cA oA tp cmds env).2.1 ≠ GoResult.ok () →
        (switchOrigin s cA oA tp cmds env).1.origin = s.origin
        ∧ (switchOrigin s cA oA tp cmds env).1.originReader = s.originReader
        ∧ (switchOrigin s cA oA tp cmds env).1.originWriter
            = s.originWriter) := by
  by_cases hpt : s.passThrough = true
  · by_cases hsus : suspendOk s.timeout env.gateFree = true
    · have h := switchOriginCore_spec { s with passThrough := false }
        cA oA tp cmds env
      constructor
      · intro hok
        have hok' : (switchOriginCore { s with passThrough := false }
            cA oA tp cmds env).2.1 = GoResult.ok () := by
          simpa [switchOrigin, hpt, hsus] using hok
        obtain ⟨h1, h2, h3, h4, h5, h6⟩ := h.1 hok'
        refine ⟨?_, ?_, ?_, ?_, ?_, ?_⟩
        · simpa [switchOrigin, hpt, hsus] using h1
        · simpa [switchOrigin, hpt, hsus] using h2
        · simpa [switchOrigin, hpt, hsus] using h3
        · simpa [switchOrigin, hpt, hsus] using h4
        · simpa [switchOrigin, hpt, hsus] using h5
        · simpa [switchOrigin, hpt, hsus] using h6
      · intro hne
        have hne' : (switchOriginCore { s with passThrough := false }
            cA oA tp cmds env).2.1 ≠ GoResult.ok () := by
          intro hc
          exact hne (by simpa [switchOrigin, hpt, hsus] using hc)
        obtain ⟨h1, h2, h3⟩ := h.2 hne'
        refine ⟨?_, ?_, ?_⟩
        · simpa [switchOrigin, hpt, hsus] using h1
        · simpa [switchOrigin, hpt, hsus] using h2
        · simpa [switchOrigin, hpt, hsus] using h3
    · constructor
      · intro hok
        simp [switchOrigin, hpt, hsus] at hok
      · intro _
        simp [switchOrigin, hpt, hsus]
  · have hpt' : s.passThrough = false := eq_false_of_ne_true hpt
    have h := switchOriginCore_spec s cA oA tp cmds env
    constructor
    · intro hok
      have hok' : (switchOriginCore s cA oA tp cmds env).2.1
          = GoResult.ok () := by
        simpa [switchOrigin, hpt'] using hok
      obtain ⟨h1, h2, h3, h4, h5, h6⟩ := h.1 hok'
      refine ⟨?_, ?_, ?_, ?_, ?_, ?_⟩
      · simpa [switchOrigin, hpt'] using h1
      · simpa [switchOrigin, hpt'] using h2
      · simpa [switchOrigin, hpt'] using h3
      · simpa [switchOrigin, hpt'] using h4
      · simpa [switchOrigin, hpt'] using h5
      · simpa [switchOrigin, hpt'] using h6
    · intro hne
      have hne' : (switchOriginCore s cA oA tp cmds env).2.1
          ≠ GoResult.ok () := by
        intro hc
        exact hne (by simpa [switchOrigin, hpt'] using hc)
      obtain ⟨h1, h2, h3⟩ := h.2 hne'
      refine ⟨?_, ?_, ?_⟩
      · simpa [switchOrigin, hpt'] using h1
      · simpa [switchOrigin, hpt'] using h2
      · simpa [switchOrigin, hpt'] using h3

/-- A switch environment in which everything succeeds (used by
witnesses). -/
def envOkSwitch : SwitchEnv :=
  { gateFree := fun _ => true
    dialResult := some 9
    dns := Except.ok [IPAddr.v4 10 0 0 2]
    headerWriteOk := true
    greeting := some "220 server ready\r\n"
    tlsSteps := fun _ => ⟨true, some "234 proceed\r\n"⟩ }

/-- Witness for the amended C1: a successful switch from `stateA`
replays `AUTH TLS`, `PBSZ 0`, `PROT P` exactly once in order, clears
the stop flag and closes the old socket. -/
theorem switchOrigin_amended_witness :
    writtenLines (switchOrigin stateA "1.2.3.4:5000" "origin.example:21" 771
        ["AUTH TLS\r\n", "PBSZ 0\r\n", "PROT P\r\n"] envOkSwitch).2.2
      = ["AUTH TLS\r\n", "PBSZ 0\r\n", "PROT P\r\n"]
    ∧ (switchOrigin stateA "1.2.3.4:5000" "origin.example:21" 771
        ["AUTH TLS\r\n", "PBSZ 0\r\n", "PROT P\r\n"] envOkSwitch).1.stop = false
    ∧ stateA.origin.id ∈ (switchOrigin stateA "1.2.3.4:5000"
        "origin.example:21" 771
        ["AUTH TLS\r\n", "PBSZ 0\r\n", "PROT P\r\n"] envOkSwitch).1.closed := by
  have h := (switchOrigin_amended stateA "1.2.3.4:5000" "origin.example:21"
      771 ["AUTH TLS\r\n", "PBSZ 0\r\n", "PROT P\r\n"] envOkSwitch).1
    (by decide)
  exact ⟨h.1, h.2.1, h.2.2.1⟩

/-- When the dial succeeds and the header phase produced exactly the
PROXY header event, the write trace of the switch body starts with that
header and continues with FTP writes only. -/
theorem switchOriginCore_header_trace (s : ProxyState) (cA oA : String)
    (tp : Nat) (cmds : List String) (env : SwitchEnv) (nid : Nat)
    (hdr : ProxyHeader)
    (hdial : env.dialResult = some nid)
    (hph : headerPhase s.proxyProtocol env cA oA nid
      = GoResult.ok [WEvent.header nid hdr]) :
    ∃ rest, (switchOriginCore s cA oA tp cmds env).2.2
        = WEvent.header nid hdr :: rest
      ∧ ∀ e ∈ rest, ∃ cid line, e = WEvent.ftpWrite cid line := by
  rcases hgreet : env.greeting with _ | g
  · refine ⟨[], ?_, by simp⟩
    simp [switchOriginCore, hdial, closeOrigin, closeConn, hph, hgreet]
  · rcases haux : sendTLSCommandAux tp env.tlsSteps cmds 0 ⟨nid, []⟩
      with ⟨res, tr⟩
    refine ⟨tr.map (WEvent.ftpWrite nid), ?_, ?_⟩
    · cases res <;>
        simp [switchOriginCore, hdial, closeOrigin, closeConn, hph, hgreet,
          sendTLSCommand, haux]
    · intro e he
      rw [List.mem_map] at he
      obtain ⟨line, _, rfl⟩ := he
      exact ⟨nid, line, rfl⟩

/-- Claim C7 as stated — the destination IP of the emitted PROXY header
is the IPv4 result of resolving the destination hostname — is false:
the code uses `hostIP[0]`, the first lookup result whatever its family.
Counterexample: a lookup answering an IPv6 address first yields a
header declaring `TCP4` whose destination address is that IPv6
address. -/
theorem switchOrigin_header_ipv4_counterexample :
    ¬ (∀ (s : ProxyState) (cA oA : String) (tp : Nat) (cmds : List String)
          (env : SwitchEnv) (cid : Nat) (h : ProxyHeader),
        WEvent.header cid h ∈ (switchOrigin s cA oA tp cmds env).2.2 →
        IPAddr.isV4 h.dstAddr = true) := by
  intro hAll
  have := hAll statePP "1.2.3.4:5000" "origin.example:21" 771 [] envV6 7
    { version := 1
      transport := Transport.TCP4
      srcAddr := "1.2.3.4"
      dstAddr := IPAddr.v6 "2001:db8::1"
      srcPort := 5000
      dstPort := 21 }
    (by decide)
  exact absurd this (by decide)

/-- Claim C7 amended: with proxy-protocol enabled, a successful dial, a
non-empty DNS answer and a successful header write, the proxy writes to
the new origin — before any FTP byte — a PROXY v1 header declaring
transport TCP4 with the client's source IP and port and the destination
port from the origin address, the destination IP being the FIRST result
of the DNS lookup of the destination hostname (which, contrary to the
original claim, need not be an IPv4 address). -/
theorem switchOrigin_header_amended (s : ProxyState) (cA oA : String)
    (tp : Nat) (cmds : List String) (env : SwitchEnv) (nid : Nat)
    (ip0 : IPAddr) (ips : List IPAddr) (sh sp dh dp : String)
    (hpp : s.proxyProtocol = true)
    (hdial : env.dialResult = some nid)
    (hdns : env.dns = Except.ok (ip0 :: ips))
    (hw : env.headerWriteOk = true)
    (hsrc : goSplit cA ':' = [sh, sp])
    (hdst : goSplit oA ':' = [dh, dp])
    (hsus : s.passThrough = false ∨ suspendOk s.timeout env.gateFree = true) :
    ∃ rest, (switchOrigin s cA oA tp cmds env).2.2
        = WEvent.header nid
            { version := 1
              transport := Transport.TCP4
              srcAddr := sh
              dstAddr := ip0
              srcPort := atoi sp % 65536
              dstPort := atoi dp % 65536 } :: rest
      ∧ ∀ e ∈ rest, ∃ cid line, e = WEvent.ftpWrite cid line := by
  have hheader : sendProxyHeader env.dns cA oA
      = GoResult.ok
          { version := 1
            transport := Transport.TCP4
            srcAddr := sh
            dstAddr := ip0
            srcPort := atoi sp % 65536
            dstPort := atoi dp % 65536 } := by
    unfold sendProxyHeader
    rw [hsrc, hdst, hdns]
    simp
  have hph : headerPhase s.proxyProtocol env cA oA nid
      = GoResult.ok [WEvent.header nid
          { version := 1
            transport := Transport.TCP4
            srcAddr := sh
            dstAddr := ip0
            srcPort := atoi sp % 65536
            dstPort := atoi dp % 65536 }] := by
    simp [headerPhase, hpp, hheader, hw]
  rcases hsus with hsus | hsus
  · have hcore := switchOriginCore_header_trace s cA oA tp cmds env nid _
      hdial hph
    simpa [switchOrigin, hsus] using hcore
  · by_cases hpt : s.passThrough = true
    · have hph' : headerPhase ({ s with passThrough := false }).proxyProtocol
          env cA oA nid
        = GoResult.ok [WEvent.header nid
            { version := 1
              transport := Transport.TCP4
              srcAddr := sh
              dstAddr := ip0
              srcPort := atoi sp % 65536
              dstPort := atoi dp % 65536 }] := by
        simpa using hph
      have hcore := switchOriginCore_header_trace
        { s with passThrough := false } cA oA tp cmds env nid _ hdial hph'
      simpa [switchOrigin, hpt, hsus] using hcore
    · have hcore := switchOriginCore_header_trace s cA oA tp cmds env nid _
        hdial hph
      simpa [switchOrigin, eq_false_of_ne_true hpt] using hcore

/-- Witness for the amended C7: a concrete switch with proxy-protocol on
emits the PROXY header first, destination `10.0.0.2` (the first lookup
result), source `1.2.3.4:5000`, destination port 21. -/
theorem switchOrigin_header_amended_witness :
    ∃ rest, (switchOrigin statePP "1.2.3.4:5000" "origin.example:21" 771 []
        envOkSwitch).2.2
        = WEvent.header 9
            { version := 1
              transport := Transport.TCP4
              srcAddr := "1.2.3.4"
              dstAddr := IPAddr.v4 10 0 0 2
              srcPort := atoi "5000" % 65536
              dstPort := atoi "21" % 65536 } :: rest
      ∧ ∀ e ∈ rest, ∃ cid line, e = WEvent.ftpWrite cid line :=
  switchOrigin_header_amended statePP "1.2.3.4:5000" "origin.example:21" 771
    [] envOkSwitch 9 (IPAddr.v4 10 0 0 2) [] "1.2.3.4" "5000"
    "origin.example" "21" rfl rfl rfl rfl (by decide) (by decide)
    (Or.inl rfl)

end Pftp
